import Mathlib

/-!
Shallow embedding of the dropkick image pipeline (oxidecomputer/dropkick)
and proofs about its specified behavior.

Conventions:
* bytes are `Nat` (values < 256 in practice; nothing here depends on the bound);
* Rust `u64` arithmetic is `Nat` with an explicit `% 2 ^ 64` where overflow
  is possible;
* strings are `List Char` so that Rust's char-precision formatting and
  truncation are explicit;
* fallible code returns `Option`/`Except`, and a Rust panic is modelled as a
  distinct error constructor, noted at the definition;
* external effects (subprocess exit codes, network bodies, hashes, registry
  contents) are parameters, and the order of observable effects is recorded
  as an explicit event list where a claim is about ordering.
-/

namespace Dropkick

/-! ## Sparse copy engine (build.rs lines 231-253) -/

/-- A destination-side operation performed by `sparse_copy`: a forward seek of
`k` bytes (`dest.seek(SeekFrom::Current(seek))`) or a write of a byte list
(`dest.write_all(..)`). -/
inductive SparseOp
  | seekFwd (k : Nat)
  | writeAll (bs : List Nat)
  deriving DecidableEq

/-- Effect of `src.read(&mut buf)` on the 4096-byte buffer: the freshly read
block `b` (of length `n = b.length`) overwrites `buf[..n]`; `buf[n..]` keeps
its previous contents. -/
def updateBuf (buf b : List Nat) : List Nat := b ++ buf.drop b.length

/-- Loop of `sparse_copy` (build.rs lines 234-248) followed by the trailing
flush (lines 249-251). `blocks` is the sequence of results of `src.read`; an
empty block models `read` returning `0`, which breaks the loop. The zero test
`buf[..n] == [0; 4096][..n]` compares exactly the freshly read bytes, i.e.
`b`. On a non-zero block the code executes `dest.write_all(&buf)`: the whole
4096-byte buffer, not just the `n` freshly read bytes. -/
def sparseCopyOps : List (List Nat) → List Nat → Nat → List SparseOp
  | [], _, sk => if sk > 0 then [SparseOp.seekFwd sk] else []
  | b :: rest, buf, sk =>
    if b.length = 0 then (if sk > 0 then [SparseOp.seekFwd sk] else [])
    else if b.all (fun x => x = 0) then
      sparseCopyOps rest (updateBuf buf b) (sk + b.length)
    else
      (if sk > 0 then [SparseOp.seekFwd sk] else []) ++
        SparseOp.writeAll (updateBuf buf b) :: sparseCopyOps rest (updateBuf buf b) 0

/-- `sparse_copy(src, dest)` (build.rs line 231): the buffer starts as
`[0; 4096]` and the pending-seek counter as `0`. -/
def sparse_copy (blocks : List (List Nat)) : List SparseOp :=
  sparseCopyOps blocks (List.replicate 4096 0) 0

/-- Reading the destination back from the position it was at when
`sparse_copy` started: a forward seek leaves a hole that reads as zeros, a
write contributes its bytes. The length of the rendered list is also the
total advance of the destination's write position. -/
def renderOps : List SparseOp → List Nat
  | [] => []
  | SparseOp.seekFwd k :: rest => List.replicate k 0 ++ renderOps rest
  | SparseOp.writeAll bs :: rest => bs ++ renderOps rest

/-! ## Image names (ec2.rs lines 20-25, oxide.rs lines 40-47) -/

/-- EC2 image name, `format!("{name:.len$}-{store_hash}", len = 128 - (32 + 1))`
(ec2.rs lines 20-25): the package name truncated to at most 95 characters,
then `-`, then the store hash. -/
def ec2_image_name (name hash : List Char) : List Char :=
  name.take (128 - (32 + 1)) ++ '-' :: hash

/-- Character replacement performed by `.replace("_", "-")` (oxide.rs line 46). -/
def replaceUnderscore (c : Char) : Char := if c = '_' then '-' else c

/-- Oxide image name (oxide.rs lines 40-47): the same 128-bounded name, then
`.replace("_", "-")`, then `image_name.truncate(63)`, which keeps the first
63 characters. -/
def oxide_image_name (name hash : List Char) : List Char :=
  ((ec2_image_name name hash).map replaceUnderscore).take 63

/-! ## Oxide disk size (oxide.rs lines 227-243) -/

/-- Bytes in 1 GiB, the `ONE_GB` constant of oxide.rs line 228. -/
def ONE_GB : Nat := 1024 * 1024 * 1024

/-- `get_disk_size` (oxide.rs lines 227-243) on the file length `disk_size`:
if the length is not a multiple of `ONE_GB`, round down to a multiple and add
`ONE_GB`. The `u64` addition is modelled with an explicit `% 2 ^ 64`; the
subtraction cannot underflow because `disk_size % ONE_GB ≤ disk_size`. -/
def get_disk_size (disk_size : Nat) : Nat :=
  if disk_size % ONE_GB ≠ 0 then
    ((disk_size - disk_size % ONE_GB) + ONE_GB) % 2 ^ 64
  else disk_size

/-! ## EC2 publish (ec2.rs lines 17-119) -/

/-- The registry state visible to `describe_images().owners("self")`: the
caller's own images, as (name, provider-assigned image id) pairs in listing
order. -/
structure Ec2Registry where
  images : List (List Char × Nat)
  deriving DecidableEq

/-- `describe_images().owners("self").filters(name = imageName)` followed by
`.images().first().and_then(|image| image.image_id())` (ec2.rs lines 31-39):
the id of the first of the caller's own images carrying exactly this name. -/
def describe_images_by_name (r : Ec2Registry) (imageName : List Char) : Option Nat :=
  (r.images.find? (fun p => p.1 == imageName)).map (fun p => p.2)

/-- Result of one `create_ec2_image` call: the registry afterwards, the
returned image id, and how many snapshot uploads / image registrations the
call performed. -/
structure PublishOutcome where
  registry : Ec2Registry
  imageId : Nat
  snapshotUploads : Nat
  imageRegistrations : Nat
  deriving DecidableEq

/-- Control flow of `Args::create_ec2_image` (ec2.rs lines 17-119) with the
cloud effects abstracted: if an image with the computed name already exists
among the caller's own images, its id is returned at once (lines 31-43) with
no snapshot upload and no registration; otherwise the artifact is uploaded as
a snapshot (lines 45-54) and an image named `imageName` is registered
(lines 64-91), the provider assigning the fresh id `freshImageId`. -/
def create_ec2_image (r : Ec2Registry) (imageName : List Char) (freshImageId : Nat) :
    PublishOutcome :=
  match describe_images_by_name r imageName with
  | some id => ⟨r, id, 0, 0⟩
  | none => ⟨⟨r.images ++ [(imageName, freshImageId)]⟩, freshImageId, 1, 1⟩

/-! ## Oxide publish (oxide.rs lines 31-223) -/

/-- The Oxide registry state visible to `image_list().project(..)`: the
project's images as (name, provider-assigned image id) pairs in listing
order. -/
structure OxideRegistry where
  images : List (List Char × Nat)
  deriving DecidableEq

/-- `image_list().project(&project)` followed by
`.items.iter().find(|x| *x.name == image_name)` (oxide.rs lines 53-65, and
again lines 182-189): the id of the first image in the project carrying
exactly this name. -/
def image_list_find (r : OxideRegistry) (imageName : List Char) : Option Nat :=
  (r.images.find? (fun p => p.1 == imageName)).map (fun p => p.2)

/-- Result of one `create_oxide_image` call: the project registry
afterwards, the identifier the call returned, and how many snapshot uploads
(bulk-write disk imports) it performed. -/
structure OxidePublishOutcome where
  registry : OxideRegistry
  returnedId : Nat
  snapshotUploads : Nat
  deriving DecidableEq

/-- Control flow of `Args::create_oxide_image` (oxide.rs lines 31-223) with
the cloud effects abstracted: if an image with the computed name already
exists in the project, its id is returned at once (lines 53-65) with no
snapshot upload; otherwise the artifact is uploaded through the bulk-write
disk import and snapshotted (lines 74-166, counted as the one snapshot
upload), an image named `imageName` is created from the snapshot
(lines 168-180) with the provider assigning `freshImageId`, and the image
list is consulted again with `.find(..).unwrap()` (lines 182-189; the
`none` arm models that unwrap panicking, unreachable right after the
create). With `deploy` false the image id is returned (lines 191-193); with
`deploy` true an instance is created and the call returns the instance's
provider-assigned id `freshInstanceId` (lines 198-222). -/
def create_oxide_image (deploy : Bool) (r : OxideRegistry) (imageName : List Char)
    (freshImageId freshInstanceId : Nat) : Option OxidePublishOutcome :=
  match image_list_find r imageName with
  | some id => some ⟨r, id, 0⟩
  | none =>
    match image_list_find ⟨r.images ++ [(imageName, freshImageId)]⟩ imageName with
    | none => none
    | some imgId =>
      some (if deploy then ⟨⟨r.images ++ [(imageName, freshImageId)]⟩, freshInstanceId, 1⟩
        else ⟨⟨r.images ++ [(imageName, freshImageId)]⟩, imgId, 1⟩)

/-! ## Verified cache fetch (distro.rs lines 18-135) -/

/-- Errors `fetch_ubuntu` can return on the paths modelled here. -/
inductive FetchErr
  | sigFailure
  | checksumNotFound
  | badDownloadChecksum
  deriving DecidableEq

/-- Observable artifact-trusting and cache-mutating steps of `fetch_ubuntu`,
in execution order: extracting (hex-decoding) the artifact's checksum from
the manifest (lines 63-69), deleting a stale cached file (line 102),
downloading the artifact body (lines 113-124), and persisting the temp file
into the cache path (line 131). -/
inductive FetchEv
  | trustChecksum
  | deleteStale
  | downloadBody
  | persistTemp
  deriving DecidableEq

/-- Whether `fetch_ubuntu` returned the cache path or an error. -/
inductive FetchOutcome
  | fetchErr (e : FetchErr)
  | pathReturned
  deriving DecidableEq

/-- Result of one `fetch_ubuntu` call: outcome, event list in order, and the
content at the cache path afterwards (`none` = no file there). -/
structure FetchResult where
  outcome : FetchOutcome
  events : List FetchEv
  cache : Option (List Nat)
  deriving DecidableEq

/-- Control flow of `fetch_ubuntu` (distro.rs lines 18-135) with external
effects abstracted. `sigOk` is the outcome of
`signature.verify(&*crate::keys::UBUNTU, ..)` against the pinned embedded
key (line 57); `false` also covers signature bytes that fail to parse
(lines 51-56, 146-154), which error even earlier. `checksumLookup` is the
digest the manifest holds for the artifact's filename (lines 63-69, `none` =
not found). `cached` is the content at the computed cache path, `hash` the
streaming SHA-256 over a byte list, `body` the bytes the network returns for
the artifact. On a cached-digest mismatch the stale file is removed
(line 102) and the download runs; the downloaded bytes stream into a temp
file in the cache directory and are persisted to the cache path only when
their digest matches (lines 125-131); otherwise `ensure!` fails and the temp
file is dropped, never renamed into place. -/
def fetch_ubuntu (sigOk : Bool) (checksumLookup : Option (List Nat))
    (cached : Option (List Nat)) (hash : List Nat → List Nat) (body : List Nat) :
    FetchResult :=
  if sigOk then
    match checksumLookup with
    | none => ⟨FetchOutcome.fetchErr FetchErr.checksumNotFound, [], cached⟩
    | some expected =>
      let cachePhase : Bool × List FetchEv × Option (List Nat) :=
        match cached with
        | some c =>
          if hash c = expected then (false, [FetchEv.trustChecksum], some c)
          else (true, [FetchEv.trustChecksum, FetchEv.deleteStale], none)
        | none => (true, [FetchEv.trustChecksum], none)
      match cachePhase with
      | (false, evs, cacheNow) => ⟨FetchOutcome.pathReturned, evs, cacheNow⟩
      | (true, evs, cacheNow) =>
        if hash body = expected then
          ⟨FetchOutcome.pathReturned, evs ++ [FetchEv.downloadBody, FetchEv.persistTemp],
            some body⟩
        else
          ⟨FetchOutcome.fetchErr FetchErr.badDownloadChecksum,
            evs ++ [FetchEv.downloadBody], cacheNow⟩
  else ⟨FetchOutcome.fetchErr FetchErr.sigFailure, [], cached⟩

/-! ## Mount / partition-map lifecycle (mount.rs, kpartx.rs, context.rs) -/

/-- Observable teardown steps: running `umount` (mount.rs lines 60-67),
running `kpartx -d` (kpartx.rs lines 69-77), the backing `TempPath` being
deleted when dropped, and the backing file being reused via
`image.persist(..)` (context.rs). -/
inductive Ev
  | unmountOp
  | unmapOp
  | deleteBacking
  | persistBacking
  deriving DecidableEq

/-- Drop of a `Kpartx` (kpartx.rs lines 58-67) followed by the drop of its
`source: Option<TempPath>` field: if the guard is still armed (`source` is
`Some`), `cleanup` runs (its own failure only logged) and then the backing
file is deleted; if disarmed, neither happens for this handle. -/
def kpartxDrop (armed : Bool) : List Ev :=
  if armed then [Ev.unmapOp, Ev.deleteBacking] else []

/-- `Kpartx::delete` (kpartx.rs lines 51-55): `self.source.take()` first,
then `cleanup(&source)?`. Returns the event list and whether the call
succeeded. On cleanup failure the `?` return drops the local `TempPath`,
deleting the backing file; on success the caller receives the `TempPath`. -/
def Kpartx.delete (cleanupOk : Bool) : List Ev × Bool :=
  if cleanupOk then ([Ev.unmapOp], true)
  else ([Ev.unmapOp, Ev.deleteBacking], false)

/-- `MountPoint::unmount` (mount.rs lines 42-46): `self.kpartx.take()` first,
then `unmount(self.path.path())?`. On unmount failure the `?` return drops
the taken `Kpartx` (still armed), so its cleanup and backing-file deletion
run; the consumed `MountPoint`'s own drop sees `kpartx == None` and does
nothing. On success the caller receives the armed `Kpartx`. -/
def MountPoint.unmount (unmountOk : Bool) : List Ev × Bool :=
  if unmountOk then ([Ev.unmountOp], true)
  else (Ev.unmountOp :: kpartxDrop true, false)

/-- Drop of a `MountPoint` (mount.rs lines 49-58) followed by its field drops
in declaration order (`path: TempDir`, then `kpartx: Option<Kpartx>`): if the
`kpartx` field is still present, `unmount` runs (failure only logged) and
then the owned `Kpartx` drops. -/
def mountPointDrop (kpartxPresent : Bool) : List Ev :=
  if kpartxPresent then Ev.unmountOp :: kpartxDrop true else []

/-- `ImageContext::finish` (context.rs): `self.mount_point.unmount()?`, then
`kpartx.delete()?`, then `image.persist(self.output_path)?`, each `?`
unwinding as modelled above. -/
def ImageContext.finish (unmountOk cleanupOk : Bool) : List Ev :=
  let s1 := MountPoint.unmount unmountOk
  if s1.2 then
    let s2 := Kpartx.delete cleanupOk
    if s2.2 then s1.1 ++ s2.1 ++ [Ev.persistBacking] else s1.1 ++ s2.1
  else s1.1

/-- Unwinding drop of a live `ImageContext` (context.rs) holding a mounted
`MountPoint` that owns an armed `Kpartx` — the path taken when the enclosing
operation fails after mounting succeeded. -/
def imageContextUnwind : List Ev := mountPointDrop true

/-- every occurrence of `a` in `t` comes strictly before every occurrence of
`b`: once a `b` has been seen, no `a` may follow. -/
def allBefore {α : Type} [DecidableEq α] : List α → α → α → Bool
  | [], _, _ => true
  | x :: rest, a, b =>
    (if x = b then !(rest.contains a) else true) && allBefore rest a b

/-- Guard-level steps of an explicit release call: `disarm` is the
`self.source.take()` / `self.kpartx.take()`, `releaseRun` the invocation of
`cleanup` / `unmount`, then its success or failure. -/
inductive GuardEv
  | disarm
  | releaseRun
  | releaseOk
  | releaseFail
  deriving DecidableEq

/-- `Kpartx::delete` (kpartx.rs lines 51-55) at guard granularity: the guard
is disarmed by `take()`, then `cleanup` runs and succeeds or fails. Returns
(armed afterwards, trace); the guard stays disarmed either way. -/
def Kpartx.deleteGuard (cleanupOk : Bool) : Bool × List GuardEv :=
  (false, [GuardEv.disarm, GuardEv.releaseRun,
    if cleanupOk then GuardEv.releaseOk else GuardEv.releaseFail])

/-- `MountPoint::unmount` (mount.rs lines 42-46) at guard granularity:
`self.kpartx.take()` disarms, then `unmount` runs and succeeds or fails. -/
def MountPoint.unmountGuard (unmountOk : Bool) : Bool × List GuardEv :=
  (false, [GuardEv.disarm, GuardEv.releaseRun,
    if unmountOk then GuardEv.releaseOk else GuardEv.releaseFail])

/-- Drop at guard granularity: a still-armed guard runs the release once, a
disarmed guard does nothing. -/
def dropGuard (armed : Bool) : List GuardEv :=
  if armed then [GuardEv.releaseRun] else []

/-- Explicit `Kpartx::delete` followed by the handle's drop. -/
def deleteThenDrop (cleanupOk : Bool) : List GuardEv :=
  (Kpartx.deleteGuard cleanupOk).2 ++ dropGuard (Kpartx.deleteGuard cleanupOk).1

/-- Explicit `MountPoint::unmount` followed by the handle's drop. -/
def unmountThenDrop (unmountOk : Bool) : List GuardEv :=
  (MountPoint.unmountGuard unmountOk).2 ++ dropGuard (MountPoint.unmountGuard unmountOk).1

/-- Number of release invocations in a guard trace. -/
def releaseCount (t : List GuardEv) : Nat := t.count GuardEv.releaseRun

/-- The discipline C7 claims: every `disarm` happens only after a successful
release has completed. -/
def disarmOnlyAfterSuccess (t : List GuardEv) : Bool :=
  (t.foldl
    (fun st e =>
      match st with
      | (seenOk, ok) =>
        (seenOk || e = GuardEv.releaseOk,
          ok && (e ≠ GuardEv.disarm || seenOk)))
    (false, true)).2

/-! ## kpartx output parsing (kpartx.rs lines 27-45) -/

/-- The marker scanned for on each line of `kpartx -avs` stdout. -/
def addMapMarker : List Char := "add map ".toList

/-- `line.strip_prefix("add map ")` (kpartx.rs line 33). -/
def stripMarker (l : List Char) : Option (List Char) :=
  if addMapMarker.isPrefixOf l then some (l.drop addMapMarker.length) else none

/-- `s.split_whitespace().next()` (kpartx.rs line 36): the first
whitespace-delimited token, or `none` when only whitespace remains. -/
def firstToken (l : List Char) : Option (List Char) :=
  let rest := l.dropWhile Char.isWhitespace
  if rest.isEmpty then none else some (rest.takeWhile (fun c => !c.isWhitespace))

/-- a stdout line the parser handles without panicking: if it carries the
`add map ` marker, at least one whitespace-delimited token follows. -/
def lineOk (l : List Char) : Bool :=
  match stripMarker l with
  | none => true
  | some s => (firstToken s).isSome

/-- Errors of `Kpartx::new` modelled here: `panicNoToken` models the
`.unwrap()` panic on kpartx.rs line 36 when a marker line carries no token;
`noPartitions` is the `ensure!` error of lines 39-42. -/
inductive KpartxErr
  | panicNoToken
  | noPartitions
  deriving DecidableEq

/-- The parsing loop of `Kpartx::new` (kpartx.rs lines 32-38): for each line
carrying the `add map ` marker, push the first whitespace-delimited token of
the remainder; `none` models the `.unwrap()` panic when that token does not
exist. -/
def kpartxParseLines : List (List Char) → Option (List (List Char))
  | [] => some []
  | l :: rest =>
    match stripMarker l with
    | none => kpartxParseLines rest
    | some s =>
      match firstToken s with
      | none => none
      | some t => (kpartxParseLines rest).map (fun ps => t :: ps)

/-- `Kpartx::new` on the given stdout lines (kpartx.rs lines 27-45), after a
zero subprocess exit status: parse the partitions, then
`ensure!(!kpartx.partitions.is_empty(), "no partitions detected ..")`. -/
def kpartx_new (lines : List (List Char)) : Except KpartxErr (List (List Char)) :=
  match kpartxParseLines lines with
  | none => Except.error KpartxErr.panicNoToken
  | some ps =>
    if ps.isEmpty then Except.error KpartxErr.noPartitions else Except.ok ps

/-! ## Theorems -/

/-- C1: the claim says reading the destination back yields byte-for-byte the
source content and the final write position advances by exactly the bytes
read. The code instead executes `dest.write_all(&buf)` (build.rs line 246),
writing the whole 4096-byte buffer: on a source whose single read returns
the one non-zero byte `1`, the destination receives 4096 bytes (the byte
followed by 4095 bytes of initial buffer content) and the write position
advances by 4096, not 1. -/
theorem sparse_copy_short_write_bug :
    renderOps (sparse_copy [[1]]) = 1 :: List.replicate 4095 0 ∧
    renderOps (sparse_copy [[1]]) ≠ [1] ∧
    (renderOps (sparse_copy [[1]])).length = 4096 := by
  have h : renderOps (sparse_copy [[1]]) = 1 :: List.replicate 4095 0 := by
    show renderOps (sparseCopyOps [[1]] (List.replicate 4096 0) 0) = _
    have h4096 : List.replicate 4096 (0 : Nat) = 0 :: List.replicate 4095 0 := rfl
    simp only [sparseCopyOps, updateBuf, h4096]
    norm_num [renderOps]
  refine ⟨h, ?_, ?_⟩
  · rw [h]
    intro hcontr
    have hlen := congrArg List.length hcontr
    simp only [List.length_cons, List.length_replicate, List.length_nil] at hlen
    omega
  · rw [h]
    simp only [List.length_cons, List.length_replicate]

/-- C2 counterexample: the claim says provider-specific character
restrictions are applied before the final truncation to the provider hard
limit "never losing the uniqueness-bearing suffix". For a package name of
150 characters and a 32-character store hash, `truncate(63)` (oxide.rs
line 47) keeps the first 63 characters of the 128-character name, so the
oxide image name does not end with the `-<store_hash>` suffix. -/
theorem oxide_image_name_loses_suffix :
    List.isSuffixOf ('-' :: List.replicate 32 'h')
      (oxide_image_name (List.replicate 150 'a') (List.replicate 32 'h')) = false := by
  decide

/-- C2 amended: the image name is bounded by 128 characters with truncation
applied only to the package-name portion, so the 128-bounded (EC2) name
always ends with the full `-<store_hash>` suffix; for a package name of
length 150 the result is exactly 128 characters and still ends with the
suffix; the underscore replacement is applied before the final truncation to
the 63-character oxide hard limit, but that truncation keeps the leading 63
characters and therefore drops the suffix whenever the replaced name is
longer than 63 characters (it preserves no suffix in general). -/
theorem image_name_bounds (name hash : List Char) (h : hash.length = 32) :
    (ec2_image_name name hash).length ≤ 128 ∧
    List.IsSuffix ('-' :: hash) (ec2_image_name name hash) ∧
    (name.length = 150 → (ec2_image_name name hash).length = 128) ∧
    oxide_image_name name hash =
      ((ec2_image_name name hash).map replaceUnderscore).take 63 ∧
    (oxide_image_name name hash).length ≤ 63 := by
  refine ⟨?_, ⟨name.take (128 - (32 + 1)), rfl⟩, ?_, rfl, ?_⟩
  · simp [ec2_image_name, h]
  · intro hn
    simp [ec2_image_name, h, hn]
  · simp [oxide_image_name]

/-- C2 witness: at a 150-character package name and a 32-character store
hash the EC2 name is exactly 128 characters. -/
theorem image_name_bounds_witness :
    (ec2_image_name (List.replicate 150 'a') (List.replicate 32 'h')).length = 128 :=
  (image_name_bounds (List.replicate 150 'a') (List.replicate 32 'h')
    (by simp)).2.2.1 (by simp)

/-- C10: `get_disk_size` returns the file length unchanged when it is a
multiple of 2^30 and otherwise rounds it up to the next multiple of 2^30
(so the result is a multiple of 2^30, at least the length, and less than
the length plus 2^30); a zero length yields 0, and a non-empty file smaller
than 1 GiB yields exactly 2^30. The hypothesis keeps the `u64` addition from
wrapping. -/
theorem get_disk_size_rounds_up (s : Nat) (h : s + 2 ^ 30 ≤ 2 ^ 64 - 1) :
    get_disk_size s % 2 ^ 30 = 0 ∧
    s ≤ get_disk_size s ∧
    get_disk_size s < s + 2 ^ 30 ∧
    (s % 2 ^ 30 = 0 → get_disk_size s = s) ∧
    (s = 0 → get_disk_size s = 0) ∧
    (0 < s → s < 2 ^ 30 → get_disk_size s = 2 ^ 30) := by
  have h30 : (2 : Nat) ^ 30 = 1073741824 := by norm_num
  have h64 : (2 : Nat) ^ 64 = 18446744073709551616 := by norm_num
  simp only [get_disk_size, ONE_GB, h30, h64] at *
  refine ⟨?_, ?_, ?_, fun h1 => ?_, fun h1 => ?_, fun h1 h2 => ?_⟩ <;> split <;> omega

/-- C10 witness: a 5-byte artifact is rounded up to exactly 1 GiB. -/
theorem get_disk_size_rounds_up_witness : get_disk_size 5 = 2 ^ 30 :=
  (get_disk_size_rounds_up 5 (by norm_num)).2.2.2.2.2 (by norm_num) (by norm_num)

/-- Helper: `find?` over an appended singleton when the front list has no
match. -/
theorem find?_append_singleton {α : Type} (p : α → Bool) (l : List α) (x : α)
    (h : l.find? p = none) : (l ++ [x]).find? p = [x].find? p := by
  rw [List.find?_append, h]
  rfl

/-- Helper: `create_ec2_image` when the name is already registered. -/
theorem create_ec2_image_found (r : Ec2Registry) (imageName : List Char) (i fid : Nat)
    (h : describe_images_by_name r imageName = some i) :
    create_ec2_image r imageName fid = ⟨r, i, 0, 0⟩ := by
  unfold create_ec2_image
  rw [h]

/-- Helper: `create_ec2_image` when the name is not yet registered. -/
theorem create_ec2_image_notfound (r : Ec2Registry) (imageName : List Char) (fid : Nat)
    (h : describe_images_by_name r imageName = none) :
    create_ec2_image r imageName fid = ⟨⟨r.images ++ [(imageName, fid)]⟩, fid, 1, 1⟩ := by
  unfold create_ec2_image
  rw [h]

/-- Helper: an Oxide registry with the name absent lists it after an image
under that name is created. -/
theorem image_list_find_append (r : OxideRegistry) (imageName : List Char) (f : Nat)
    (h : image_list_find r imageName = none) :
    image_list_find ⟨r.images ++ [(imageName, f)]⟩ imageName = some f := by
  unfold image_list_find at h ⊢
  cases hf : r.images.find? (fun p => p.1 == imageName) with
  | some q => rw [hf] at h; simp at h
  | none =>
    rw [find?_append_singleton _ _ _ hf]
    simp [List.find?_cons_of_pos]

/-- Helper: `create_oxide_image` when the name is already registered. -/
theorem create_oxide_image_found (deploy : Bool) (r : OxideRegistry)
    (imageName : List Char) (i f1 f2 : Nat)
    (h : image_list_find r imageName = some i) :
    create_oxide_image deploy r imageName f1 f2 = some ⟨r, i, 0⟩ := by
  unfold create_oxide_image
  rw [h]

/-- Helper: `create_oxide_image` when the name is not yet registered. -/
theorem create_oxide_image_notfound (deploy : Bool) (r : OxideRegistry)
    (imageName : List Char) (f1 f2 : Nat)
    (h : image_list_find r imageName = none) :
    create_oxide_image deploy r imageName f1 f2 =
      some (if deploy then ⟨⟨r.images ++ [(imageName, f1)]⟩, f2, 1⟩
        else ⟨⟨r.images ++ [(imageName, f1)]⟩, f1, 1⟩) := by
  unfold create_oxide_image
  rw [h, image_list_find_append r imageName f1 h]

/-- Helper: after any successful `create_oxide_image` call, the project
lists an image under the computed name. -/
theorem create_oxide_image_registers (deploy : Bool) (r : OxideRegistry)
    (imageName : List Char) (f1 f2 : Nat) (o1 : OxidePublishOutcome)
    (h1 : create_oxide_image deploy r imageName f1 f2 = some o1) :
    ∃ i, image_list_find o1.registry imageName = some i := by
  cases hfind : image_list_find r imageName with
  | some i =>
    rw [create_oxide_image_found deploy r imageName i f1 f2 hfind] at h1
    injection h1 with h1'
    subst h1'
    exact ⟨i, hfind⟩
  | none =>
    rw [create_oxide_image_notfound deploy r imageName f1 f2 hfind] at h1
    injection h1 with h1'
    subst h1'
    cases deploy with
    | true => exact ⟨f1, image_list_find_append r imageName f1 hfind⟩
    | false => exact ⟨f1, image_list_find_append r imageName f1 hfind⟩

/-- C3 counterexample: the claim says publishing twice with identical
provenance returns the same identifier both times. On the Oxide path with
`deploy = true` and the name not yet registered, the first publish creates
the image (id 1) and returns the newly created instance's id 2
(oxide.rs line 222); the second publish finds the image and returns the
image id 1 (oxide.rs line 64) — two different identifiers. -/
theorem oxide_deploy_breaks_same_identifier :
    create_oxide_image true ⟨[]⟩ ['a'] 1 2 = some ⟨⟨[(['a'], 1)]⟩, 2, 1⟩ ∧
    create_oxide_image true ⟨[(['a'], 1)]⟩ ['a'] 3 4 = some ⟨⟨[(['a'], 1)]⟩, 1, 0⟩ ∧
    Option.map OxidePublishOutcome.returnedId
        (create_oxide_image true ⟨[(['a'], 1)]⟩ ['a'] 3 4) ≠
      Option.map OxidePublishOutcome.returnedId
        (create_oxide_image true ⟨[]⟩ ['a'] 1 2) := by
  decide

/-- C3 amended: publish is idempotent in its registry effects. On both
providers, if the registry already contains an image whose name equals the
computed image name (scoped to the caller's own resources / project),
publish returns that existing image's identifier immediately, performing no
snapshot upload and no image registration. Hence publishing twice with
identical provenance issues no second snapshot upload; the repeat returns
the same identifier as the first call on the EC2 path and on the Oxide path
without `deploy`, while on the Oxide path with `deploy = true` the first
call returns the created instance's identifier and the repeat returns the
image's identifier. -/
theorem publish_idempotent (r : Ec2Registry) (ro : OxideRegistry)
    (imageName : List Char) (id1 id2 f1 f2 f3 f4 : Nat) (deploy : Bool) :
    (∀ i, describe_images_by_name r imageName = some i →
      create_ec2_image r imageName id1 = ⟨r, i, 0, 0⟩) ∧
    ((create_ec2_image (create_ec2_image r imageName id1).registry imageName id2).imageId =
        (create_ec2_image r imageName id1).imageId ∧
      (create_ec2_image (create_ec2_image r imageName id1).registry imageName
          id2).snapshotUploads = 0 ∧
      (create_ec2_image (create_ec2_image r imageName id1).registry imageName
          id2).imageRegistrations = 0 ∧
      (create_ec2_image (create_ec2_image r imageName id1).registry imageName id2).registry =
        (create_ec2_image r imageName id1).registry) ∧
    (∀ i, image_list_find ro imageName = some i →
      create_oxide_image deploy ro imageName f1 f2 = some ⟨ro, i, 0⟩) ∧
    (∀ o1, create_oxide_image false ro imageName f1 f2 = some o1 →
      create_oxide_image false o1.registry imageName f3 f4 =
        some ⟨o1.registry, o1.returnedId, 0⟩) ∧
    (∀ o1 o2, create_oxide_image deploy ro imageName f1 f2 = some o1 →
      create_oxide_image deploy o1.registry imageName f3 f4 = some o2 →
      o2.snapshotUploads = 0) := by
  refine ⟨?_, ?_, ?_, ?_, ?_⟩
  · intro i hi
    exact create_ec2_image_found r imageName i id1 hi
  · cases hfind : r.images.find? (fun p => p.1 == imageName) with
    | some q =>
      have hd : describe_images_by_name r imageName = some q.2 := by
        unfold describe_images_by_name
        rw [hfind]
        rfl
      simp [create_ec2_image_found r imageName q.2 _ hd]
    | none =>
      have hd : describe_images_by_name r imageName = none := by
        unfold describe_images_by_name
        rw [hfind]
        rfl
      have hd2 : describe_images_by_name ⟨r.images ++ [(imageName, id1)]⟩ imageName =
          some id1 := by
        unfold describe_images_by_name
        rw [find?_append_singleton _ _ _ hfind]
        simp [List.find?_cons_of_pos]
      simp [create_ec2_image_notfound r imageName id1 hd,
        create_ec2_image_found _ imageName id1 id2 hd2]
  · intro i hi
    exact create_oxide_image_found deploy ro imageName i f1 f2 hi
  · intro o1 h1
    cases hfind : image_list_find ro imageName with
    | some i =>
      rw [create_oxide_image_found false ro imageName i f1 f2 hfind] at h1
      injection h1 with h1'
      subst h1'
      exact create_oxide_image_found false ro imageName i f3 f4 hfind
    | none =>
      rw [create_oxide_image_notfound false ro imageName f1 f2 hfind] at h1
      injection h1 with h1'
      subst h1'
      exact create_oxide_image_found false _ imageName f1 f3 f4
        (image_list_find_append ro imageName f1 hfind)
  · intro o1 o2 h1 h2
    obtain ⟨i, hi⟩ := create_oxide_image_registers deploy ro imageName f1 f2 o1 h1
    rw [create_oxide_image_found deploy o1.registry imageName i f3 f4 hi] at h2
    injection h2 with h2'
    subst h2'
    rfl

/-- C3 witness: with `a` already registered under id 5 on EC2, publishing
returns 5 immediately with no upload and no registration; with `b` already
registered under id 7 on Oxide, publishing returns 7 with no upload. -/
theorem publish_idempotent_witness :
    create_ec2_image ⟨[(['a'], 5)]⟩ ['a'] 9 = ⟨⟨[(['a'], 5)]⟩, 5, 0, 0⟩ ∧
    create_oxide_image false ⟨[(['b'], 7)]⟩ ['b'] 9 10 = some ⟨⟨[(['b'], 7)]⟩, 7, 0⟩ :=
  ⟨(publish_idempotent ⟨[(['a'], 5)]⟩ ⟨[]⟩ ['a'] 9 0 0 0 0 0 false).1 5 (by decide),
    (publish_idempotent ⟨[]⟩ ⟨[(['b'], 7)]⟩ ['b'] 0 0 9 10 0 0 false).2.2.1 7 (by decide)⟩

/-- C4: whenever verification of the detached signature against the pinned
embedded key fails (`sigOk = false`, which also covers corrupted or
truncated signature bytes that fail to parse), `fetch_ubuntu` returns the
signature-failure error with an empty event list, whatever the manifest
holds: no checksum is extracted or trusted from the manifest, no artifact
body is downloaded, the cache is untouched, and no artifact path is
returned. -/
theorem fetch_sig_failure_aborts (checksumLookup : Option (List Nat))
    (cached : Option (List Nat)) (hash : List Nat → List Nat) (body : List Nat) :
    fetch_ubuntu false checksumLookup cached hash body =
      ⟨FetchOutcome.fetchErr FetchErr.sigFailure, [], cached⟩ ∧
    FetchEv.trustChecksum ∉ (fetch_ubuntu false checksumLookup cached hash body).events ∧
    FetchEv.downloadBody ∉ (fetch_ubuntu false checksumLookup cached hash body).events ∧
    (fetch_ubuntu false checksumLookup cached hash body).outcome ≠
      FetchOutcome.pathReturned := by
  refine ⟨rfl, ?_, ?_, ?_⟩ <;> simp [fetch_ubuntu]

/-- C4 witness: a failed signature check with an empty manifest lookup, an
empty cache and the identity digest returns the signature-failure error and
performs nothing. -/
theorem fetch_sig_failure_aborts_witness :
    fetch_ubuntu false none none (fun l => l) [] =
      ⟨FetchOutcome.fetchErr FetchErr.sigFailure, [], none⟩ :=
  (fetch_sig_failure_aborts none none (fun l => l) []).1

/-- C5: with a file already at the cache path, if its streamed digest equals
the manifest's expected digest the path is returned with no download and the
cache untouched; if it differs, the stale file is deleted and exactly one
redownload runs: when the downloaded digest matches, the temp file is
persisted into the cache path and the path returned; when it does not, the
call fails, no persist happens, and the cache path stays empty (the temp
file is never renamed into place). -/
theorem fetch_cache_revalidation (expected c body : List Nat)
    (hash : List Nat → List Nat) :
    (hash c = expected →
      fetch_ubuntu true (some expected) (some c) hash body =
        ⟨FetchOutcome.pathReturned, [FetchEv.trustChecksum], some c⟩) ∧
    (hash c ≠ expected → hash body = expected →
      fetch_ubuntu true (some expected) (some c) hash body =
        ⟨FetchOutcome.pathReturned,
          [FetchEv.trustChecksum, FetchEv.deleteStale, FetchEv.downloadBody,
            FetchEv.persistTemp], some body⟩) ∧
    (hash c ≠ expected → hash body ≠ expected →
      fetch_ubuntu true (some expected) (some c) hash body =
        ⟨FetchOutcome.fetchErr FetchErr.badDownloadChecksum,
          [FetchEv.trustChecksum, FetchEv.deleteStale, FetchEv.downloadBody], none⟩) := by
  refine ⟨fun h1 => ?_, fun h1 h2 => ?_, fun h1 h2 => ?_⟩
  · simp [fetch_ubuntu, h1]
  · simp [fetch_ubuntu, h1, h2]
  · simp [fetch_ubuntu, h1, h2]

/-- C5 witness: a stale cached file (digest `[1]` against expected `[0]`,
with the identity as the digest function) is deleted, the body is downloaded
once, verified, and persisted into the cache path. -/
theorem fetch_cache_revalidation_witness :
    fetch_ubuntu true (some [0]) (some [1]) (fun l => l) [0] =
      ⟨FetchOutcome.pathReturned,
        [FetchEv.trustChecksum, FetchEv.deleteStale, FetchEv.downloadBody,
          FetchEv.persistTemp], some [0]⟩ :=
  (fetch_cache_revalidation [0] [1] [0] (fun l => l)).2.1 (by decide) (by decide)

/-- C6: on every exit path from the scope holding a `MountPoint` that owns a
`Kpartx` — `ImageContext::finish` succeeding, failing at the unmount, failing
at the partition-map teardown, or the drop-unwinding path taken when the
enclosing operation fails after mounting succeeded — the unmount executes
strictly before the partition map is torn down, and the teardown of the
partition map executes strictly before the backing file is deleted or reused;
on the unwinding path both the unmount and the unmap still run, in that
order. -/
theorem unmount_before_unmap_before_reuse (unmountOk cleanupOk : Bool) :
    (allBefore (ImageContext.finish unmountOk cleanupOk) Ev.unmountOp Ev.unmapOp = true ∧
      allBefore (ImageContext.finish unmountOk cleanupOk) Ev.unmapOp Ev.deleteBacking = true ∧
      allBefore (ImageContext.finish unmountOk cleanupOk) Ev.unmapOp Ev.persistBacking = true ∧
      Ev.unmountOp ∈ ImageContext.finish unmountOk cleanupOk ∧
      Ev.unmapOp ∈ ImageContext.finish unmountOk cleanupOk) ∧
    (allBefore imageContextUnwind Ev.unmountOp Ev.unmapOp = true ∧
      allBefore imageContextUnwind Ev.unmapOp Ev.deleteBacking = true ∧
      allBefore imageContextUnwind Ev.unmapOp Ev.persistBacking = true ∧
      Ev.unmountOp ∈ imageContextUnwind ∧ Ev.unmapOp ∈ imageContextUnwind) := by
  cases unmountOk <;> cases cleanupOk <;> decide

/-- C6 witness: on the fully successful `finish` path the unmount runs. -/
theorem unmount_before_unmap_before_reuse_witness :
    Ev.unmountOp ∈ ImageContext.finish true true :=
  (unmount_before_unmap_before_reuse true true).1.2.2.2.1

/-- C7 counterexample: the claim says the cleanup guard is disarmed only
after the explicit release operation has completed successfully. In
`Kpartx::delete` the guard is disarmed by `self.source.take()` before
`cleanup` even runs; with a failing cleanup the trace disarms although the
release never completes successfully, so the claimed discipline is violated. -/
theorem guard_disarmed_before_release :
    disarmOnlyAfterSuccess (deleteThenDrop false) = false := by decide

/-- C7 amended: the cleanup guard is disarmed by taking the resource out of
the handle before the explicit release operation runs, which equally ensures
release is invoked at most once per handle: an explicit `Kpartx::delete` or
`MountPoint::unmount` followed by the handle's drop performs the release
exactly once whether the release succeeds or fails (the drop performs no
second cleanup, and a failed release attempts no duplicate), and the disarm
always precedes the release invocation. -/
theorem release_at_most_once (cleanupOk unmountOk : Bool) :
    releaseCount (deleteThenDrop cleanupOk) = 1 ∧
    releaseCount (unmountThenDrop unmountOk) = 1 ∧
    allBefore (deleteThenDrop cleanupOk) GuardEv.disarm GuardEv.releaseRun = true ∧
    allBefore (unmountThenDrop unmountOk) GuardEv.disarm GuardEv.releaseRun = true ∧
    releaseCount (dropGuard false) = 0 := by
  cases cleanupOk <;> cases unmountOk <;> decide

/-- C7 witness: a delete whose cleanup fails still releases exactly once. -/
theorem release_at_most_once_witness :
    releaseCount (deleteThenDrop false) = 1 :=
  (release_at_most_once false false).1

/-- C8: `Kpartx::new` fails with the distinct "no partitions detected" error
whenever the parsing loop discovers zero partition-device entries, and every
successfully constructed `Kpartx` has a non-empty partition list. -/
theorem kpartx_new_nonempty (lines : List (List Char)) :
    (kpartxParseLines lines = some [] →
      kpartx_new lines = Except.error KpartxErr.noPartitions) ∧
    (∀ ps, kpartx_new lines = Except.ok ps → ps ≠ []) := by
  constructor
  · intro h
    unfold kpartx_new
    rw [h]
    rfl
  · intro ps h hnil
    subst hnil
    unfold kpartx_new at h
    cases hp : kpartxParseLines lines with
    | none => rw [hp] at h; simp at h
    | some qs =>
      rw [hp] at h
      by_cases hq : qs.isEmpty = true
      · simp [hq] at h
      · simp [hq] at h
        exact hq (by simp [h])

/-- C8 witness: stdout with no `add map ` line yields zero entries and the
"no partitions" error. -/
theorem kpartx_new_nonempty_witness :
    kpartx_new [['x']] = Except.error KpartxErr.noPartitions :=
  (kpartx_new_nonempty [['x']]).1 rfl

/-- C9 counterexample: the claim says extraction never fails or panics, even
when nothing follows the marker. On the stdout line `add map ` (marker
followed by end of line) the code reaches
`s.split_whitespace().next().unwrap()` with no token and panics, modelled as
the `panicNoToken` error. -/
theorem kpartx_marker_without_token_panics :
    kpartx_new ["add map ".toList] = Except.error KpartxErr.panicNoToken := rfl

/-- Helper: when every marker line carries a token, the parsing loop
collects exactly the first token of each marker line. -/
theorem kpartxParseLines_all_ok (lines : List (List Char))
    (h : lines.all lineOk = true) :
    kpartxParseLines lines =
      some (lines.filterMap (fun l => (stripMarker l).bind firstToken)) := by
  induction lines with
  | nil => rfl
  | cons l rest ih =>
    rw [List.all_cons, Bool.and_eq_true] at h
    have hrest := ih h.2
    have hl := h.1
    unfold lineOk at hl
    cases hm : stripMarker l with
    | none => simp [kpartxParseLines, List.filterMap_cons, hm, hrest]
    | some s =>
      rw [hm] at hl
      cases ht : firstToken s with
      | none => simp [ht] at hl
      | some t => simp [kpartxParseLines, List.filterMap_cons, hm, ht, hrest]

/-- C9 amended: for every stdout whose marker lines each carry at least one
whitespace-delimited token after `add map `, the parser succeeds and
extracts exactly the first such token of each marker line (non-marker lines
are skipped), and `Kpartx::new` does not panic; when a marker line carries
no token, the `.unwrap()` panics instead. -/
theorem kpartx_parse_first_tokens (lines : List (List Char))
    (h : lines.all lineOk = true) :
    kpartxParseLines lines =
      some (lines.filterMap (fun l => (stripMarker l).bind firstToken)) ∧
    kpartx_new lines ≠ Except.error KpartxErr.panicNoToken := by
  have hparse := kpartxParseLines_all_ok lines h
  refine ⟨hparse, ?_⟩
  unfold kpartx_new
  rw [hparse]
  split
  · simp_all
  · split <;> simp

/-- C9 witness: a realistic `kpartx -avs` line yields the device name
`loop0p1` and no panic. -/
theorem kpartx_parse_first_tokens_witness :
    kpartxParseLines ["add map loop0p1 (253:0): 0 8 linear".toList] =
      some (["add map loop0p1 (253:0): 0 8 linear".toList].filterMap
        (fun l => (stripMarker l).bind firstToken)) ∧
    kpartx_new ["add map loop0p1 (253:0): 0 8 linear".toList] ≠
      Except.error KpartxErr.panicNoToken :=
  kpartx_parse_first_tokens ["add map loop0p1 (253:0): 0 8 linear".toList] (by decide)

end Dropkick
